import Mathlib

/-!
Shallow embedding of the PyHtmlToPDF service core, translated from
`app/services/pdf_service.py`, `app/api/v1/pdf.py` and
`app/api/v1/system.py`, together with theorems settling the frozen
claims about the specification.
-/

namespace PyHtmlToPDF

/-- Values stored in an option mapping.  In the service, option values are
either strings (page format, sides of the page-edge spacing object),
booleans (`print_background`, `prefer_css_page_size`), or a flat
string-valued sub-object (the `margin` entry of `default_options`). -/
inductive Value where
  | str (s : String)
  | bool (b : Bool)
  | obj (fields : List (String × String))
deriving DecidableEq, Repr

/-- An options mapping, modelling a Python `dict` as an ordered association
list keyed by strings (insertion order preserved, keys unique in the dicts
the service builds). -/
abbrev Options := List (String × Value)

/-- The fixed defaults from `PDFService.__init__` (pdf_service.py lines
16-27): format A4, 1cm page-edge spacing on all four sides,
print_background and prefer_css_page_size true. -/
def default_options : Options :=
  [("format", Value.str "A4"),
   ("margin", Value.obj
      [("top", "1cm"), ("right", "1cm"), ("bottom", "1cm"), ("left", "1cm")]),
   ("print_background", Value.bool true),
   ("prefer_css_page_size", Value.bool true)]

/-- Python dict merge `{**a, **b}`: keys of `a` in their order, with the
value replaced by the value in `b` when `b` also binds the key, followed by
the keys of `b` not present in `a`, in their order. -/
def pyMerge (a b : Options) : Options :=
  (a.map fun kv =>
    match List.lookup kv.1 b with
    | some w => (kv.1, w)
    | none => kv) ++
  b.filter fun kv => (List.lookup kv.1 a).isNone

/-- The option-resolution step `options = {**self.default_options,
**(options or {})}` appearing at pdf_service.py lines 32 and 72.  A missing
(`None`) overrides mapping behaves as the empty dict. -/
def resolveOptions (overrides : Option Options) : Options :=
  pyMerge default_options (overrides.getD [])

/-- Looks up one side of the `margin` sub-object of a resolved options
mapping, if that entry exists and is a sub-object. -/
def marginLookup (o : Options) (side : String) : Option String :=
  match List.lookup "margin" o with
  | some (Value.obj m) => List.lookup side m
  | _ => none

/-- Python `x or y` applied to an optional string and a fallback, as in
`request_id = x_request_id or str(uuid.uuid4())` (pdf.py line 23) and
`request_id = request_id or str(uuid.uuid4())` (pdf_service.py lines 31
and 71): the supplied value when present and non-empty, the fallback
otherwise. -/
def resolveRequestId (supplied : Option String) (fallback : String) : String :=
  match supplied with
  | none => fallback
  | some s => if s = "" then fallback else s

/-- Whether `p` is an initial segment of `s` (character lists). -/
def charsStartWith : List Char → List Char → Bool
  | [], _ => true
  | _ :: _, [] => false
  | p :: ps, c :: cs => p == c && charsStartWith ps cs

/-- Whether the character list `p` occurs contiguously inside `s`. -/
def containsSeq (p : List Char) : List Char → Bool
  | [] => charsStartWith p []
  | c :: cs => charsStartWith p (c :: cs) || containsSeq p cs

/-- Python substring containment `pat in s`. -/
def strContains (s pat : String) : Bool :=
  containsSeq pat.toList s.toList

/-! ### Render session driver and conversion orchestration

The two conversion methods of `PDFService` (pdf_service.py lines 29-67 and
69-107) drive one Playwright session each: log start, then inside
`try: async with async_playwright() as p:` launch the browser, open a
page, load content (`page.goto` for URL / `page.set_content` for HTML),
wait for the network-idle load state, call `page.pdf(**options)`, and call
`browser.close()`; the `async with` exit runs on every path; the `except`
clause logs a failure line and re-raises.  The external engine is modelled
as an oracle giving the outcome of each fallible step. -/

deriving instance DecidableEq for Except

/-- Oracle for the external browser engine: the outcome of each fallible
call made during one conversion.  `none` means the call succeeds; a string
is the message of the exception it raises. -/
structure Engine where
  launchErr : Option String
  loadErr : Option String
  idleErr : Option String
  pdfResult : Except String (List Nat)
  closeErr : Option String
deriving DecidableEq, Repr

/-- One observable call on the engine. -/
inductive EngineOp where
  | launch
  | newPage
  | goto
  | setContent
  | waitIdle
  | printPdf
  | closeBrowser
  | playwrightExit
deriving DecidableEq, Repr

/-- Everything one conversion produces: the returned bytes or the raised
exception, the engine calls made in order, the log lines emitted in order,
and the options mapping resolved before rendering. -/
structure ConvOutcome where
  result : Except String (List Nat)
  ops : List EngineOp
  logs : List String
  resolvedOptions : Options
deriving DecidableEq, Repr

/-- Log line of pdf_service.py line 34. -/
def logStartUrl (rid : String) : String :=
  "Request " ++ (rid ++ ": Starting URL to PDF conversion")

/-- Log line of pdf_service.py line 74. -/
def logStartHtml (rid : String) : String :=
  "Request " ++ (rid ++ ": Starting HTML to PDF conversion")

/-- Log line of pdf_service.py lines 42 and 82. -/
def logLaunching (rid : String) : String :=
  "Request " ++ (rid ++ ": Launching browser")

/-- Log line of pdf_service.py line 46. -/
def logNavigating (rid : String) : String :=
  "Request " ++ (rid ++ ": Navigating to URL")

/-- Log line of pdf_service.py line 86. -/
def logSettingContent (rid : String) : String :=
  "Request " ++ (rid ++ ": Setting HTML content")

/-- Log line of pdf_service.py lines 50 and 90. -/
def logGenerating (rid : String) : String :=
  "Request " ++ (rid ++ ": Generating PDF")

/-- Log line of pdf_service.py lines 54 and 94. -/
def logSuccess (rid : String) : String :=
  "Request " ++ (rid ++ ": PDF generation completed successfully")

/-- Log line of pdf_service.py lines 62 and 102. -/
def logFailure (rid : String) : String :=
  "Request " ++ (rid ++ ": PDF conversion failed")

/-- The body of the `async with` block shared by both conversions
(pdf_service.py lines 41-52 / 81-92), parameterised by the load step
performed (`goto` for URL, `setContent` for HTML) and its log line.
Returns the result of the block, the engine calls made and the log lines
emitted.  A call that raises still appears among the calls made. -/
def sessionBody (eng : Engine) (loadOp : EngineOp) (loadLog : String)
    (rid : String) : Except String (List Nat) × List EngineOp × List String :=
  match eng.launchErr with
  | some e => (Except.error e, [EngineOp.launch], [logLaunching rid])
  | none =>
    match eng.loadErr with
    | some e =>
      (Except.error e, [EngineOp.launch, EngineOp.newPage, loadOp],
       [logLaunching rid, loadLog])
    | none =>
      match eng.idleErr with
      | some e =>
        (Except.error e,
         [EngineOp.launch, EngineOp.newPage, loadOp, EngineOp.waitIdle],
         [logLaunching rid, loadLog])
      | none =>
        match eng.pdfResult with
        | Except.error e =>
          (Except.error e,
           [EngineOp.launch, EngineOp.newPage, loadOp, EngineOp.waitIdle,
            EngineOp.printPdf],
           [logLaunching rid, loadLog, logGenerating rid])
        | Except.ok bytes =>
          match eng.closeErr with
          | some e =>
            (Except.error e,
             [EngineOp.launch, EngineOp.newPage, loadOp, EngineOp.waitIdle,
              EngineOp.printPdf, EngineOp.closeBrowser],
             [logLaunching rid, loadLog, logGenerating rid])
          | none =>
            (Except.ok bytes,
             [EngineOp.launch, EngineOp.newPage, loadOp, EngineOp.waitIdle,
              EngineOp.printPdf, EngineOp.closeBrowser],
             [logLaunching rid, loadLog, logGenerating rid])

/-- `PDFService.convert_url_to_pdf` (pdf_service.py lines 29-67).
`freshId` stands for the `str(uuid.uuid4())` the method would generate
when no id is supplied.  The `async with` exit runs on every path; on an
exception the `except` clause logs the failure line and re-raises. -/
def convert_url_to_pdf (eng : Engine) (url : String)
    (options : Option Options) (request_id : Option String)
    (freshId : String) : ConvOutcome :=
  let rid := resolveRequestId request_id freshId
  let opts := resolveOptions options
  let s := sessionBody eng EngineOp.goto (logNavigating rid) rid
  let ops := s.2.1 ++ [EngineOp.playwrightExit]
  match s.1 with
  | Except.ok bytes =>
    ⟨Except.ok bytes, ops,
     logStartUrl rid :: s.2.2 ++ [logSuccess rid], opts⟩
  | Except.error e =>
    ⟨Except.error e, ops,
     logStartUrl rid :: s.2.2 ++ [logFailure rid], opts⟩

/-- `PDFService.convert_html_to_pdf` (pdf_service.py lines 69-107). -/
def convert_html_to_pdf (eng : Engine) (html : String)
    (options : Option Options) (request_id : Option String)
    (freshId : String) : ConvOutcome :=
  let rid := resolveRequestId request_id freshId
  let opts := resolveOptions options
  let s := sessionBody eng EngineOp.setContent (logSettingContent rid) rid
  let ops := s.2.1 ++ [EngineOp.playwrightExit]
  match s.1 with
  | Except.ok bytes =>
    ⟨Except.ok bytes, ops,
     logStartHtml rid :: s.2.2 ++ [logSuccess rid], opts⟩
  | Except.error e =>
    ⟨Except.error e, ops,
     logStartHtml rid :: s.2.2 ++ [logFailure rid], opts⟩

/-- Number of `browser.close()` calls observed during a conversion. -/
def closeCount (o : ConvOutcome) : Nat :=
  o.ops.count EngineOp.closeBrowser

/-- Number of `async with async_playwright()` exits observed. -/
def playwrightExitCount (o : ConvOutcome) : Nat :=
  o.ops.count EngineOp.playwrightExit

/-! ### API layer (app/api/v1/pdf.py)

Each endpoint resolves the request id from the `X-Request-Id` header via
Python `or` with a fresh UUID, calls the service, and on success streams
the bytes as `application/pdf` with a filename hint; any exception is
turned into an HTTP 500 whose detail interpolates the raised message. -/

/-- Response of a conversion endpoint. -/
inductive ApiResponse where
  | pdf (bytes : List Nat) (mediaType : String) (filename : String)
  | httpError (status : Nat) (detail : String)
deriving DecidableEq, Repr

/-- Endpoint `POST /pdf/url` (pdf.py lines 16-39). -/
def api_convert_url_to_pdf (eng : Engine) (url : String)
    (options : Option Options) (x_request_id : Option String)
    (freshId : String) : ApiResponse :=
  match (convert_url_to_pdf eng url options
          (some (resolveRequestId x_request_id freshId)) freshId).result with
  | Except.ok bytes => ApiResponse.pdf bytes "application/pdf" "webpage.pdf"
  | Except.error e =>
    ApiResponse.httpError 500 ("PDF conversion failed: " ++ e)

/-- Endpoint `POST /pdf/html` (pdf.py lines 41-64). -/
def api_convert_html_to_pdf (eng : Engine) (html : String)
    (options : Option Options) (x_request_id : Option String)
    (freshId : String) : ApiResponse :=
  match (convert_html_to_pdf eng html options
          (some (resolveRequestId x_request_id freshId)) freshId).result with
  | Except.ok bytes => ApiResponse.pdf bytes "application/pdf" "document.pdf"
  | Except.error e =>
    ApiResponse.httpError 500 ("PDF conversion failed: " ++ e)

/-! ### Log query endpoint (app/api/v1/system.py lines 79-116)

The log store is the plain text file `settings.LOG_FILE`.  It is modelled
as missing, unreadable (reading raises with some message), or present with
its sequence of lines.  `readlines` yields each line with its terminator
and the loop strips each kept line, so lines are modelled as the stored
text and stripping is `String.trim`.  The wall-clock timestamp attached to
each returned entry is not modelled; an entry is its `raw_log` string. -/

/-- State of the log store file. -/
inductive LogStore where
  | missing
  | unreadable (e : String)
  | present (lines : List String)
deriving DecidableEq, Repr

/-- Result of the `GET /system/logs` endpoint. -/
inductive LogsResult where
  | noFile (logs : List String) (message : String)
  | ok (logs : List String) (total : Nat) (lim : Int) (filt : Option String)
  | err (status : Nat) (detail : String)
deriving DecidableEq, Repr

/-- Python slice `xs[i:]`: for a non-negative start, drop that many
elements; for a negative start, begin at `max 0 (len + i)`. -/
def pySliceFrom (xs : List α) (i : Int) : List α :=
  if 0 ≤ i then xs.drop i.toNat
  else xs.drop (xs.length - (-i).toNat)

/-- Python `line.strip()` (ASCII whitespace): remove leading and trailing
whitespace characters. -/
def pyStrip (s : String) : String :=
  ⟨((s.toList.dropWhile Char.isWhitespace).reverse.dropWhile
      Char.isWhitespace).reverse⟩

/-- Endpoint `GET /system/logs` (system.py lines 79-116): on a missing
store return the explanatory empty payload; otherwise read all lines,
keep those containing the filter when one is supplied and truthy, take
`lines[-limit:]`, and collect each stripped non-empty line; any raised
exception becomes an HTTP 500. -/
def get_logs (store : LogStore) (lim : Int)
    (request_id : Option String) : LogsResult :=
  match store with
  | LogStore.missing => LogsResult.noFile [] "No log file found"
  | LogStore.unreadable e =>
    LogsResult.err 500 ("Failed to read logs: " ++ e)
  | LogStore.present lines0 =>
    let lines1 :=
      match request_id with
      | some rid =>
        if rid = "" then lines0
        else lines0.filter fun l => strContains l rid
      | none => lines0
    let lines2 := pySliceFrom lines1 (-lim)
    let logs := (lines2.map pyStrip).filter fun l => l ≠ ""
    LogsResult.ok logs logs.length lim request_id

/-- The list of returned log lines, for comparing query outcomes. -/
def resultLogs : LogsResult → List String
  | LogsResult.noFile logs _ => logs
  | LogsResult.ok logs _ _ _ => logs
  | LogsResult.err _ _ => []

/-! ## Helper lemmas -/

/-- Looking a key up in the updated copy of `a` built by `pyMerge` finds the
value from `b` when `b` binds the key, and the original value otherwise. -/
theorem lookup_map_update (a b : Options) (k : String) :
    List.lookup k (a.map fun kv =>
      match List.lookup kv.1 b with
      | some w => (kv.1, w)
      | none => kv) =
    match List.lookup k a with
    | some v =>
        some (match List.lookup k b with
              | some w => w
              | none => v)
    | none => none := by
  induction a with
  | nil => simp
  | cons hd tl ih =>
    by_cases hk : k = hd.1
    · subst hk
      cases hb : List.lookup hd.1 b <;>
        simp [List.lookup, hb]
    · have hbeq : (k == hd.1) = false := by
        simp [hk]
      cases hb : List.lookup hd.1 b <;>
        simp [List.lookup, hb, hbeq, ih]

/-- Looking a key up among the entries of `b` that survive the
`pyMerge` filter gives the value from `b` when `a` does not bind the key,
and nothing otherwise. -/
theorem lookup_filter_new (a b : Options) (k : String) :
    List.lookup k (b.filter fun kv => (List.lookup kv.1 a).isNone) =
    if (List.lookup k a).isNone then List.lookup k b else none := by
  induction b with
  | nil => simp
  | cons hd tl ih =>
    obtain ⟨k1, v1⟩ := hd
    by_cases hk : k = k1
    · cases hp : (List.lookup k1 a).isNone with
      | true =>
        rw [hk]
        simp [List.filter, List.lookup, hp]
      | false =>
        rw [hk] at ih ⊢
        simp [List.filter, List.lookup, hp, ih]
    · have hbeq : (k == k1) = false := by
        simp [hk]
      cases hp : (List.lookup k1 a).isNone <;>
        simp [List.filter, List.lookup, hp, hbeq, ih]

/-- Key-for-key characterisation of the Python dict merge: the override
value wins when present, the base value survives otherwise. -/
theorem lookup_pyMerge (a b : Options) (k : String) :
    List.lookup k (pyMerge a b) =
      ((List.lookup k b).orElse fun _ => List.lookup k a) := by
  unfold pyMerge
  cases ha : List.lookup k a with
  | some v =>
    have h1 := lookup_map_update a b k
    rw [ha] at h1
    cases hb : List.lookup k b <;>
      simp [List.lookup_append, h1, hb, Option.orElse]
  | none =>
    have h1 := lookup_map_update a b k
    rw [ha] at h1
    have h2 := lookup_filter_new a b k
    rw [ha] at h2
    cases hb : List.lookup k b <;>
      simp [List.lookup_append, h1, h2, hb, Option.orElse]

/-- A successful lookup names a key present in the list. -/
theorem exists_key_of_lookup_some {l : Options} {k : String} {v : Value}
    (h : List.lookup k l = some v) : ∃ p ∈ l, p.1 = k := by
  induction l with
  | nil => simp [List.lookup] at h
  | cons hd tl ih =>
    obtain ⟨k1, v1⟩ := hd
    by_cases hk : k = k1
    · exact ⟨(k1, v1), List.mem_cons_self _ _, hk.symm⟩
    · have hbeq : (k == k1) = false := by
        simp [hk]
      simp only [List.lookup, hbeq] at h
      obtain ⟨p, hp, hpk⟩ := ih h
      exact ⟨p, List.mem_cons_of_mem _ hp, hpk⟩

theorem charsStartWith_append (p rest : List Char) :
    charsStartWith p (p ++ rest) = true := by
  induction p with
  | nil => rfl
  | cons c cs ih => simp [charsStartWith, ih]

theorem containsSeq_of_startWith (p s : List Char)
    (h : charsStartWith p s = true) : containsSeq p s = true := by
  cases s with
  | nil => exact h
  | cons c cs => simp [containsSeq, h]

theorem containsSeq_cons (p : List Char) (c : Char) (cs : List Char)
    (h : containsSeq p cs = true) : containsSeq p (c :: cs) = true := by
  simp [containsSeq, h]

theorem containsSeq_append (p mid suf : List Char) :
    containsSeq mid (p ++ (mid ++ suf)) = true := by
  induction p with
  | nil =>
    exact containsSeq_of_startWith _ _ (charsStartWith_append mid suf)
  | cons c cs ih => exact containsSeq_cons _ _ _ ih

/-- A string of the shape `pre ++ (mid ++ suf)` contains `mid` as a
substring. -/
theorem strContains_affix (pre mid suf : String) :
    strContains (pre ++ (mid ++ suf)) mid = true := by
  unfold strContains
  have h : (pre ++ (mid ++ suf)).toList =
      pre.toList ++ (mid.toList ++ suf.toList) := by
    simp [String.toList]
  rw [h]
  exact containsSeq_append pre.toList mid.toList suf.toList

/-- The slice `xs[0:]` is the whole list. -/
theorem pySliceFrom_zero (xs : List α) : pySliceFrom xs 0 = xs := by
  simp [pySliceFrom]

/-- The slice `xs[-n:]` is the whole list when `n` bounds the length. -/
theorem pySliceFrom_neg_ge (xs : List α) (n : Nat) (h : xs.length ≤ n) :
    pySliceFrom xs (-(n : Int)) = xs := by
  cases n with
  | zero => simp [pySliceFrom]
  | succ m =>
    have hneg : ¬ (0 : Int) ≤ -((m + 1 : Nat) : Int) := by omega
    have hz : xs.length - ((m + 1 : Nat)) = 0 := by omega
    simp only [pySliceFrom, hneg, if_false, neg_neg, Int.toNat_natCast, hz,
      List.drop_zero]

/-- The slice `xs[-n:]` for positive `n` is the suffix of the last `n`
elements. -/
theorem pySliceFrom_neg_last (xs : List α) (n : Nat) (h : 0 < n) :
    pySliceFrom xs (-(n : Int)) = (xs.reverse.take n).reverse := by
  have hneg : ¬ (0 : Int) ≤ -(n : Int) := by omega
  simp only [pySliceFrom, hneg, if_false, neg_neg, Int.toNat_natCast]
  rw [List.take_reverse, List.reverse_reverse]

/-- Every log line of a URL conversion is one of its six builders applied
to the resolved request id. -/
theorem convert_url_logs_sub (eng : Engine) (url : String)
    (o : Option Options) (rid : Option String) (fresh : String) :
    (convert_url_to_pdf eng url o rid fresh).logs ⊆
      [logStartUrl (resolveRequestId rid fresh),
       logLaunching (resolveRequestId rid fresh),
       logNavigating (resolveRequestId rid fresh),
       logGenerating (resolveRequestId rid fresh),
       logSuccess (resolveRequestId rid fresh),
       logFailure (resolveRequestId rid fresh)] := by
  obtain ⟨le, lo, ie, pr, ce⟩ := eng
  cases le <;> cases lo <;> cases ie <;> cases pr <;> cases ce <;>
    simp [convert_url_to_pdf, sessionBody, List.subset_def]

/-- Every log line of an HTML conversion is one of its six builders applied
to the resolved request id. -/
theorem convert_html_logs_sub (eng : Engine) (html : String)
    (o : Option Options) (rid : Option String) (fresh : String) :
    (convert_html_to_pdf eng html o rid fresh).logs ⊆
      [logStartHtml (resolveRequestId rid fresh),
       logLaunching (resolveRequestId rid fresh),
       logSettingContent (resolveRequestId rid fresh),
       logGenerating (resolveRequestId rid fresh),
       logSuccess (resolveRequestId rid fresh),
       logFailure (resolveRequestId rid fresh)] := by
  obtain ⟨le, lo, ie, pr, ce⟩ := eng
  cases le <;> cases lo <;> cases ie <;> cases pr <;> cases ce <;>
    simp [convert_html_to_pdf, sessionBody, List.subset_def]

/-! ## Claim theorems -/

/-- C5: the top-level option merge is override-wins key-for-key against the
defaults of `PDFService.__init__` — a supplied key replaces the default, a
key not supplied keeps its default, a key outside the default set is passed
through verbatim (first conjunct, stated as a lookup characterisation) —
and is commutative, as a mapping, on disjoint key sets (second
conjunct). -/
theorem c5_top_level_merge :
    (∀ (o : Options) (k : String),
      List.lookup k (resolveOptions (some o)) =
        ((List.lookup k o).orElse fun _ => List.lookup k default_options)) ∧
    (∀ a b : Options,
      (∀ p ∈ a, ∀ q ∈ b, p.1 ≠ q.1) →
      ∀ k : String,
        List.lookup k (pyMerge a b) = List.lookup k (pyMerge b a)) := by
  constructor
  · intro o k
    exact lookup_pyMerge default_options o k
  · intro a b hdisj k
    rw [lookup_pyMerge, lookup_pyMerge]
    cases hb : List.lookup k b with
    | some w =>
      have ha : List.lookup k a = none := by
        cases haa : List.lookup k a with
        | none => rfl
        | some v =>
          obtain ⟨p, hp, hpk⟩ := exists_key_of_lookup_some haa
          obtain ⟨q, hq, hqk⟩ := exists_key_of_lookup_some hb
          exact absurd (hpk.trans hqk.symm) (hdisj p hp q hq)
      simp [ha, hb, Option.orElse]
    | none =>
      cases ha : List.lookup k a <;> simp [ha, hb, Option.orElse]

/-- C5 witness: a supplied `format` replaces the default, and the merge of
two single-key mappings with distinct keys agrees in both orders. -/
theorem c5_top_level_merge_witness :
    List.lookup "format"
      (resolveOptions (some [("format", Value.str "Letter")])) =
      some (Value.str "Letter") ∧
    List.lookup "format"
      (pyMerge [("format", Value.str "Letter")] [("zoom", Value.str "2")]) =
      List.lookup "format"
        (pyMerge [("zoom", Value.str "2")] [("format", Value.str "Letter")]) := by
  constructor
  · rw [c5_top_level_merge.1 [("format", Value.str "Letter")] "format"]
    decide
  · exact c5_top_level_merge.2
      [("format", Value.str "Letter")] [("zoom", Value.str "2")]
      (by decide) "format"

/-- C7: a missing log store is not an error — the query returns the empty
payload with message "No log file found"; an error result (HTTP 500)
occurs exactly when the store exists but reading it raises. -/
theorem c7_missing_store :
    (∀ (lim : Int) (filt : Option String),
      get_logs LogStore.missing lim filt =
        LogsResult.noFile [] "No log file found") ∧
    (∀ (e : String) (lim : Int) (filt : Option String),
      get_logs (LogStore.unreadable e) lim filt =
        LogsResult.err 500 ("Failed to read logs: " ++ e)) :=
  ⟨fun _ _ => rfl, fun _ _ _ => rfl⟩

/-- C9: the correlation id of a request is the caller-supplied value when
it is present and non-empty, and the freshly generated identifier
otherwise (absent or empty). -/
theorem c9_request_id :
    (∀ (s fallback : String), s ≠ "" →
      resolveRequestId (some s) fallback = s) ∧
    (∀ fallback : String, resolveRequestId none fallback = fallback) ∧
    (∀ fallback : String, resolveRequestId (some "") fallback = fallback) := by
  refine ⟨fun s fb h => ?_, fun _ => rfl, fun _ => rfl⟩
  simp [resolveRequestId, h]

/-- C9 witness: a concrete non-empty supplied id is kept. -/
theorem c9_request_id_witness :
    resolveRequestId (some "abc-123") "00000000-fresh" = "abc-123" :=
  c9_request_id.1 "abc-123" "00000000-fresh" (by decide)

/-- C10: with `limit = 0` the query returns every matching line rather
than none: the slice `lines[-0:]` keeps the whole filtered sequence, so
the returned lines coincide with those returned under a limit as large as
the store (first conjunct), and on a concrete store every matching line
comes back (second conjunct). -/
theorem c10_zero_limit :
    (∀ (lines : List String) (filt : Option String),
      resultLogs (get_logs (LogStore.present lines) 0 filt) =
        resultLogs
          (get_logs (LogStore.present lines) (lines.length : Int) filt)) ∧
    get_logs (LogStore.present ["first abc", "second", "third abc"]) 0
        (some "abc") =
      LogsResult.ok ["first abc", "third abc"] 2 0 (some "abc") := by
  constructor
  · intro lines filt
    cases filt with
    | none =>
      have h1 := pySliceFrom_zero lines
      have h2 := pySliceFrom_neg_ge lines lines.length (le_refl _)
      simp only [get_logs, resultLogs, neg_zero, h1, h2]
    | some rid =>
      by_cases hr : rid = ""
      · have h1 := pySliceFrom_zero lines
        have h2 := pySliceFrom_neg_ge lines lines.length (le_refl _)
        simp only [get_logs, resultLogs, hr, if_true, neg_zero, h1, h2]
      · have h1 := pySliceFrom_zero (lines.filter fun l => strContains l rid)
        have h2 := pySliceFrom_neg_ge
          (lines.filter fun l => strContains l rid) lines.length
          (List.length_filter_le _ _)
        simp only [get_logs, resultLogs, hr, if_false, neg_zero, h1, h2]
  · decide

/-- C1 counterexample: with overrides `{"margin": {"top": "2cm"}}` the
resolved options take the supplied side, but the remaining sides are
erased rather than kept at their 1cm defaults — `right` does not resolve
to "1cm". -/
theorem c1_counterexample :
    marginLookup
      (resolveOptions (some [("margin", Value.obj [("top", "2cm")])]))
      "top" = some "2cm" ∧
    ¬ marginLookup
      (resolveOptions (some [("margin", Value.obj [("top", "2cm")])]))
      "right" = some "1cm" := by
  decide

/-- C1 amended: the merge at pdf_service.py lines 32 and 72 is shallow at
every key including `margin` — a supplied `margin` sub-object replaces the
default sub-object wholesale (sides not supplied are absent, not kept at
1cm), while top-level defaults for other keys stay intact. -/
theorem c1_margin_replaced_wholesale (m : List (String × String)) :
    List.lookup "margin"
      (resolveOptions (some [("margin", Value.obj m)])) =
      some (Value.obj m) ∧
    List.lookup "format"
      (resolveOptions (some [("margin", Value.obj m)])) =
      some (Value.str "A4") ∧
    List.lookup "print_background"
      (resolveOptions (some [("margin", Value.obj m)])) =
      some (Value.bool true) ∧
    List.lookup "prefer_css_page_size"
      (resolveOptions (some [("margin", Value.obj m)])) =
      some (Value.bool true) := by
  have h := lookup_pyMerge default_options [("margin", Value.obj m)]
  refine ⟨?_, ?_, ?_, ?_⟩ <;>
    simp [resolveOptions, h, default_options, List.lookup, Option.orElse]

/-- C2 counterexample: when the load-content step raises, the explicit
`browser.close()` call is never observed — its count is 0, not 1 — even
though the conversion raises and returns control. -/
theorem c2_counterexample :
    (convert_url_to_pdf
      { launchErr := none, loadErr := some "net::ERR_NAME_NOT_RESOLVED",
        idleErr := none, pdfResult := Except.ok [37, 80, 68, 70],
        closeErr := none }
      "http://bad.example" none (some "r1") "fresh-uuid").result =
      Except.error "net::ERR_NAME_NOT_RESOLVED" ∧
    closeCount
      (convert_url_to_pdf
        { launchErr := none, loadErr := some "net::ERR_NAME_NOT_RESOLVED",
          idleErr := none, pdfResult := Except.ok [37, 80, 68, 70],
          closeErr := none }
        "http://bad.example" none (some "r1") "fresh-uuid") = 0 := by
  decide

/-- C2 amended: in both conversions the explicit `browser.close()` call is
observed exactly once when launch, load, stabilize and render all succeed
(the call is made even when it itself then raises), and zero times when
any of those steps raises; only the `async with async_playwright()` exit
runs on every path, exactly once. -/
theorem c2_close_on_success_only (eng : Engine) (src : String)
    (o : Option Options) (rid : Option String) (fresh : String) :
    (playwrightExitCount (convert_url_to_pdf eng src o rid fresh) = 1 ∧
     closeCount (convert_url_to_pdf eng src o rid fresh) =
       (if eng.launchErr.isNone && eng.loadErr.isNone &&
           eng.idleErr.isNone && eng.pdfResult.isOk then 1 else 0)) ∧
    (playwrightExitCount (convert_html_to_pdf eng src o rid fresh) = 1 ∧
     closeCount (convert_html_to_pdf eng src o rid fresh) =
       (if eng.launchErr.isNone && eng.loadErr.isNone &&
           eng.idleErr.isNone && eng.pdfResult.isOk then 1 else 0)) := by
  obtain ⟨le, lo, ie, pr, ce⟩ := eng
  cases le <;> cases lo <;> cases ie <;> cases pr <;> cases ce <;>
    exact ⟨⟨rfl, rfl⟩, ⟨rfl, rfl⟩⟩

/-- C3 counterexample: the render step succeeds but `browser.close()`
raises; the caller receives the raised close error, not the PDF bytes
already produced. -/
theorem c3_counterexample :
    (convert_url_to_pdf
      { launchErr := none, loadErr := none, idleErr := none,
        pdfResult := Except.ok [37, 80, 68, 70],
        closeErr := some "Browser closed unexpectedly" }
      "http://ok.example" none (some "r2") "fresh-uuid").result =
      Except.error "Browser closed unexpectedly" ∧
    (convert_url_to_pdf
      { launchErr := none, loadErr := none, idleErr := none,
        pdfResult := Except.ok [37, 80, 68, 70],
        closeErr := some "Browser closed unexpectedly" }
      "http://ok.example" none (some "r2") "fresh-uuid").result ≠
      Except.ok [37, 80, 68, 70] := by
  decide

/-- C3 amended: in both conversions, when render-to-PDF succeeds but the
browser close raises, the close exception is logged (the failure line is
emitted) and then re-raised to the caller, so the produced bytes are
lost. -/
theorem c3_close_error_propagates (e : String) (bytes : List Nat)
    (src : String) (o : Option Options) (rid : Option String)
    (fresh : String) :
    ((convert_url_to_pdf
        { launchErr := none, loadErr := none, idleErr := none,
          pdfResult := Except.ok bytes, closeErr := some e }
        src o rid fresh).result = Except.error e ∧
     logFailure (resolveRequestId rid fresh) ∈
       (convert_url_to_pdf
         { launchErr := none, loadErr := none, idleErr := none,
           pdfResult := Except.ok bytes, closeErr := some e }
         src o rid fresh).logs) ∧
    ((convert_html_to_pdf
        { launchErr := none, loadErr := none, idleErr := none,
          pdfResult := Except.ok bytes, closeErr := some e }
        src o rid fresh).result = Except.error e ∧
     logFailure (resolveRequestId rid fresh) ∈
       (convert_html_to_pdf
         { launchErr := none, loadErr := none, idleErr := none,
           pdfResult := Except.ok bytes, closeErr := some e }
         src o rid fresh).logs) := by
  refine ⟨⟨rfl, ?_⟩, ⟨rfl, ?_⟩⟩ <;>
    simp [convert_url_to_pdf, convert_html_to_pdf, sessionBody]

/-- C4 counterexample: a failed conversion with correlation id "rid-123"
produces an HTTP 500 whose detail does not contain the correlation id, has
no error-kind taxonomy, and passes the raw engine message — including a
file-system path — through verbatim. -/
theorem c4_counterexample :
    api_convert_url_to_pdf
      { launchErr := none,
        loadErr := some "net::ERR_FILE_NOT_FOUND at /app/tmp/page.html",
        idleErr := none, pdfResult := Except.ok [37, 80, 68, 70],
        closeErr := none }
      "http://bad.example" none (some "rid-123") "fresh-uuid" =
      ApiResponse.httpError 500
        "PDF conversion failed: net::ERR_FILE_NOT_FOUND at /app/tmp/page.html" ∧
    strContains
      "PDF conversion failed: net::ERR_FILE_NOT_FOUND at /app/tmp/page.html"
      "rid-123" = false ∧
    strContains
      "PDF conversion failed: net::ERR_FILE_NOT_FOUND at /app/tmp/page.html"
      "/app/tmp/page.html" = true := by
  decide

/-- C4 amended: every conversion failure is returned as HTTP 500 with
detail "PDF conversion failed: " followed by the raised message verbatim;
the endpoint adds no error kind and no correlation id to the payload. -/
theorem c4_failure_detail_passthrough (eng : Engine) (src : String)
    (o : Option Options) (x : Option String) (fresh e : String) :
    ((convert_url_to_pdf eng src o
        (some (resolveRequestId x fresh)) fresh).result = Except.error e →
      api_convert_url_to_pdf eng src o x fresh =
        ApiResponse.httpError 500 ("PDF conversion failed: " ++ e)) ∧
    ((convert_html_to_pdf eng src o
        (some (resolveRequestId x fresh)) fresh).result = Except.error e →
      api_convert_html_to_pdf eng src o x fresh =
        ApiResponse.httpError 500 ("PDF conversion failed: " ++ e)) := by
  constructor
  · intro h
    unfold api_convert_url_to_pdf
    rw [h]
  · intro h
    unfold api_convert_html_to_pdf
    rw [h]

/-- C4 witness: a concrete launch failure is wrapped into the 500 detail. -/
theorem c4_failure_detail_passthrough_witness :
    api_convert_url_to_pdf
      { launchErr := some "boom", loadErr := none, idleErr := none,
        pdfResult := Except.ok [1], closeErr := none }
      "http://x" none (some "rid-9") "fresh-uuid" =
      ApiResponse.httpError 500 ("PDF conversion failed: " ++ "boom") :=
  (c4_failure_detail_passthrough
    { launchErr := some "boom", loadErr := none, idleErr := none,
      pdfResult := Except.ok [1], closeErr := none }
    "http://x" none (some "rid-9") "fresh-uuid" "boom").1 (by decide)

/-- C6 counterexample: a stored line carrying trailing whitespace matches
the filter but is returned stripped, so the query does not return the
matching line as stored. -/
theorem c6_counterexample :
    get_logs (LogStore.present ["abc "]) 1 (some "abc") =
      LogsResult.ok ["abc"] 1 1 (some "abc") ∧
    get_logs (LogStore.present ["abc "]) 1 (some "abc") ≠
      LogsResult.ok ["abc "] 1 1 (some "abc") := by
  decide

/-- C6 amended: for a positive limit and non-empty filter the query keeps
exactly the lines containing the filter as a substring, truncates to the
last `limit` of them preserving store order, and returns each kept line
stripped of surrounding whitespace (lines empty after stripping dropped);
on the concrete five-line store of the spec the two matching lines come
back in order. -/
theorem c6_filter_then_last_stripped :
    (∀ (lines : List String) (lim : Int) (filt : String),
      filt ≠ "" → 0 < lim →
      resultLogs (get_logs (LogStore.present lines) lim (some filt)) =
        ((((lines.filter fun l => strContains l filt).reverse.take
            lim.toNat).reverse.map pyStrip).filter fun l => l ≠ "")) ∧
    get_logs (LogStore.present
        ["line one xyz", "abc first", "line three", "abc second",
         "line five xyz"]) 2 (some "abc") =
      LogsResult.ok ["abc first", "abc second"] 2 2 (some "abc") := by
  constructor
  · intro lines lim filt hf hl
    have hcast : ((lim.toNat : Nat) : Int) = lim :=
      Int.toNat_of_nonneg (le_of_lt hl)
    have hslice : pySliceFrom (lines.filter fun l => strContains l filt)
        (-lim) =
        ((lines.filter fun l => strContains l filt).reverse.take
          lim.toNat).reverse := by
      rw [← hcast]
      exact pySliceFrom_neg_last _ lim.toNat (by omega)
    simp only [get_logs, resultLogs, hf, if_false, hslice]
  · decide

/-- C6 witness: a concrete two-line store with limit 1. -/
theorem c6_filter_then_last_stripped_witness :
    resultLogs (get_logs (LogStore.present ["ab abc", "zz"]) 1
        (some "abc")) =
      (((["ab abc", "zz"].filter fun l => strContains l "abc").reverse.take
          (1 : Int).toNat).reverse.map pyStrip).filter fun l => l ≠ "" :=
  c6_filter_then_last_stripped.1 ["ab abc", "zz"] 1 "abc" (by decide)
    (by decide)

/-- C8: every log line emitted during one conversion — from either entry
point, on every success or failure path — contains the resolved
correlation id of that request as a substring. -/
theorem c8_logs_carry_request_id :
    (∀ (eng : Engine) (url : String) (o : Option Options)
       (rid : Option String) (fresh : String) (line : String),
      line ∈ (convert_url_to_pdf eng url o rid fresh).logs →
      strContains line (resolveRequestId rid fresh) = true) ∧
    (∀ (eng : Engine) (html : String) (o : Option Options)
       (rid : Option String) (fresh : String) (line : String),
      line ∈ (convert_html_to_pdf eng html o rid fresh).logs →
      strContains line (resolveRequestId rid fresh) = true) := by
  constructor
  · intro eng url o rid fresh line hline
    have h6 := convert_url_logs_sub eng url o rid fresh hline
    simp only [List.mem_cons, List.not_mem_nil, or_false] at h6
    rcases h6 with rfl | rfl | rfl | rfl | rfl | rfl <;>
      exact strContains_affix _ _ _
  · intro eng html o rid fresh line hline
    have h6 := convert_html_logs_sub eng html o rid fresh hline
    simp only [List.mem_cons, List.not_mem_nil, or_false] at h6
    rcases h6 with rfl | rfl | rfl | rfl | rfl | rfl <;>
      exact strContains_affix _ _ _

/-- C8 witness: the start line of a concrete URL conversion contains its
correlation id. -/
theorem c8_logs_carry_request_id_witness :
    strContains (logStartUrl "r1") "r1" = true :=
  c8_logs_carry_request_id.1
    { launchErr := none, loadErr := none, idleErr := none,
      pdfResult := Except.ok [1], closeErr := none }
    "http://x" none (some "r1") "fresh-uuid" (logStartUrl "r1")
    (List.mem_cons_self _ _)

end PyHtmlToPDF
